import Mathlib

/-!
Shallow embedding of `comfy/ldm/flux/model.py` (the Flux flow-matching
transformer architecture).  Tensors are modelled as a shape (list of
dimension sizes) together with a total data function from index lists to
integer values; the numeric element type is irrelevant to the claims,
which are about shapes, index arrangement, control flow and layer
composition, so `Int` stands in for the floating-point dtype and the
`.to(dtype)` casts of the source are identities in this value model.
The sub-layers imported from `comfy/ldm/flux/layers.py`
(`DoubleStreamBlock`, `SingleStreamBlock`, `MLPEmbedder`, `LastLayer`,
`EmbedND`, `timestep_embedding`) and `operations.Linear` are not part of
the source under review and are treated as opaque functions, exactly as
the specification describes them ("opaque numeric building blocks").
`forward_orig` additionally records an event trace naming each layer
application in the order the source applies them, so that claims about
the order of the double-stream and single-stream stacks can be stated.
-/

namespace FluxSpec

/-- Tensor model: a shape and a total data function on index lists.
Only in-bounds indices are meaningful; all claims are stated for
in-bounds indices. -/
structure Tensor where
  shape : List Nat
  data : List Nat → Int

/-- Number of dimensions, `t.ndim` in torch. -/
def Tensor.ndim (t : Tensor) : Nat := t.shape.length

/-- torch.zeros. -/
def Tensor.zeros (s : List Nat) : Tensor := ⟨s, fun _ => 0⟩

/-- Pointwise tensor addition (`+` on same-shape tensors in the source). -/
def Tensor.add (a b : Tensor) : Tensor :=
  ⟨a.shape, fun idx => a.data idx + b.data idx⟩

/-- torch.cat((a, b), dim=1) for tensors agreeing on all other dims. -/
def Tensor.cat1 (a b : Tensor) : Tensor :=
  ⟨a.shape.set 1 (a.shape.getD 1 0 + b.shape.getD 1 0),
   fun idx =>
     if idx.getD 1 0 < a.shape.getD 1 0 then a.data idx
     else b.data (idx.set 1 (idx.getD 1 0 - a.shape.getD 1 0))⟩

/-- the slicing `t[:, n:, ...]` of the source. -/
def Tensor.slice1 (t : Tensor) (n : Nat) : Tensor :=
  ⟨t.shape.set 1 (t.shape.getD 1 0 - n),
   fun idx => t.data (idx.set 1 (idx.getD 1 0 + n))⟩

/-- the einops rearrange "b c (h ph) (w pw) -> b (h w) (c ph pw)" with
ph = pw = 2 applied at the start of `Flux.forward`; the patch grid sizes
are inferred from the input shape as in einops. -/
def patchify (x : Tensor) : Tensor :=
  ⟨[x.shape.getD 0 0, (x.shape.getD 2 0 / 2) * (x.shape.getD 3 0 / 2),
    x.shape.getD 1 0 * 4],
   fun idx =>
     x.data [idx.getD 0 0, idx.getD 2 0 / 4,
       (idx.getD 1 0 / (x.shape.getD 3 0 / 2)) * 2 + (idx.getD 2 0 % 4) / 2,
       (idx.getD 1 0 % (x.shape.getD 3 0 / 2)) * 2 + idx.getD 2 0 % 2]⟩

/-- the einops rearrange "b (h w) (c ph pw) -> b c (h ph) (w pw)" with
h = h_len, w = w_len, ph = pw = 2 applied at the end of `Flux.forward`;
the channel count is inferred as feature size divided by ph*pw = 4. -/
def unpatchify (u : Tensor) (h_len w_len : Nat) : Tensor :=
  ⟨[u.shape.getD 0 0, u.shape.getD 2 0 / 4, h_len * 2, w_len * 2],
   fun idx =>
     u.data [idx.getD 0 0,
       (idx.getD 2 0 / 2) * w_len + idx.getD 3 0 / 2,
       idx.getD 1 0 * 4 + (idx.getD 2 0 % 2) * 2 + idx.getD 3 0 % 2]⟩

/-- kinds of layer applications recorded by the instrumented forward pass. -/
inductive EKind where
  | pe
  | double
  | concat
  | single
  | final
deriving DecidableEq

/-- an event of the instrumented forward pass, carrying the argument
tensors the claims talk about (the positional ids fed to the positional
embedder, and the conditioning vector fed to each block). -/
inductive Event where
  | peCall (ids : Tensor)
  | doubleBlock (vec : Tensor)
  | concatStreams
  | singleBlock (vec : Tensor)
  | finalLayer (vec : Tensor)

/-- the kind of an event. -/
def Event.kind : Event → EKind
  | .peCall _ => .pe
  | .doubleBlock _ => .double
  | .concatStreams => .concat
  | .singleBlock _ => .single
  | .finalLayer _ => .final

/-- the conditioning-vector argument an event records, if any. -/
def Event.vecArg : Event → Option Tensor
  | .peCall _ => none
  | .doubleBlock v => some v
  | .concatStreams => none
  | .singleBlock v => some v
  | .finalLayer v => some v

/-- a double-stream block: (img, txt, vec, pe) to (img, txt); opaque. -/
abbrev DBlock := Tensor → Tensor → Tensor → Tensor → Tensor × Tensor

/-- a single-stream block: (img, vec, pe) to img; opaque. -/
abbrev SBlock := Tensor → Tensor → Tensor → Tensor

/-- the FluxParams dataclass of the source.  `mlpRat` is `mlp_ratio` in
the source (a float there; its value is only passed through to the
opaque blocks, so a rational stands in for it). -/
structure FluxParams where
  in_channels : Nat
  vec_in_dim : Nat
  context_in_dim : Nat
  hidden_size : Nat
  mlpRat : Rat
  num_heads : Nat
  depth : Nat
  depth_single_blocks : Nat
  axes_dim : List Nat
  theta : Nat
  qkv_bias : Bool
  guidance_embed : Bool

/-- `self.guidance_in`: an MLPEmbedder when params.guidance_embed else
nn.Identity(). -/
inductive GuidanceIn where
  | embedder (f : Tensor → Tensor)
  | identity

/-- applying `self.guidance_in` to a tensor. -/
def GuidanceIn.apply : GuidanceIn → Tensor → Tensor
  | .embedder f, t => f t
  | .identity, t => t

/-- the `operations` object passed to the constructor: its Linear layer
factory, taking in_features, out_features and the bias flag; opaque. -/
structure Operations where
  Linear : Nat → Nat → Bool → (Tensor → Tensor)

/-- the layer classes and functions imported from
`comfy/ldm/flux/layers.py`; all opaque.  Constructor arguments mirror
the source call sites (`MLPEmbedder in_dim hidden_dim`,
`DoubleStreamBlock hidden_size num_heads mlp_ratio qkv_bias`,
`SingleStreamBlock hidden_size num_heads mlp_ratio`,
`LastLayer hidden_size patch_size out_channels`,
`EmbedND dim theta axes_dim`, `timestep_embedding t dim`). -/
structure LayersLib where
  timestep_embedding : Tensor → Nat → Tensor
  MLPEmbedder : Nat → Nat → (Tensor → Tensor)
  DoubleStreamBlock : Nat → Nat → Rat → Bool → DBlock
  SingleStreamBlock : Nat → Nat → Rat → SBlock
  LastLayer : Nat → Nat → Nat → (Tensor → Tensor → Tensor)
  EmbedND : Nat → Nat → List Nat → (Tensor → Tensor)

/-- the Flux module: its configuration plus its sub-layers, as built by
`Flux.__init__`.  `timestep_embedding` is the function imported from the
layers module, carried here so the forward pass can call it. -/
structure Flux where
  params : FluxParams
  in_channels : Nat
  out_channels : Nat
  hidden_size : Nat
  num_heads : Nat
  timestep_embedding : Tensor → Nat → Tensor
  pe_embedder : Tensor → Tensor
  img_in : Tensor → Tensor
  time_in : Tensor → Tensor
  vector_in : Tensor → Tensor
  guidance_in : GuidanceIn
  txt_in : Tensor → Tensor
  double_blocks : List DBlock
  single_blocks : List SBlock
  final_layer : Tensor → Tensor → Tensor

/-- the constructor `Flux.__init__` (given the imported layer classes
and the `operations` object): the two ValueError checks, then the
sub-layer assignments, in source order.  The f-string error messages are
reproduced via toString. -/
def Flux.init (lib : LayersLib) (ops : Operations) (params : FluxParams) :
    Except String Flux :=
  if params.hidden_size % params.num_heads ≠ 0 then
    .error ("Hidden size " ++ toString params.hidden_size ++
      " must be divisible by num_heads " ++ toString params.num_heads)
  else
    if params.axes_dim.sum ≠ params.hidden_size / params.num_heads then
      .error ("Got " ++ toString params.axes_dim ++
        " but expected positional dim " ++
        toString (params.hidden_size / params.num_heads))
    else
      .ok
        { params := params
          in_channels := params.in_channels
          out_channels := params.in_channels
          hidden_size := params.hidden_size
          num_heads := params.num_heads
          timestep_embedding := lib.timestep_embedding
          pe_embedder := lib.EmbedND (params.hidden_size / params.num_heads)
            params.theta params.axes_dim
          img_in := ops.Linear params.in_channels params.hidden_size true
          time_in := lib.MLPEmbedder 256 params.hidden_size
          vector_in := lib.MLPEmbedder params.vec_in_dim params.hidden_size
          guidance_in :=
            if params.guidance_embed then
              GuidanceIn.embedder (lib.MLPEmbedder 256 params.hidden_size)
            else GuidanceIn.identity
          txt_in := ops.Linear params.context_in_dim params.hidden_size true
          double_blocks := (List.range params.depth).map fun _ =>
            lib.DoubleStreamBlock params.hidden_size params.num_heads
              params.mlpRat params.qkv_bias
          single_blocks := (List.range params.depth_single_blocks).map fun _ =>
            lib.SingleStreamBlock params.hidden_size params.num_heads
              params.mlpRat
          final_layer := lib.LastLayer params.hidden_size 1 params.in_channels }

/-- the loop `for block in self.double_blocks: img, txt = block(...)`,
recording one event per block application. -/
def runDoubleBlocks :
    List DBlock → Tensor → Tensor → Tensor → Tensor →
      Tensor × Tensor × List Event
  | [], img, txt, _, _ => (img, txt, [])
  | blk :: rest, img, txt, vec, pe =>
    let r := blk img txt vec pe
    let t := runDoubleBlocks rest r.1 r.2 vec pe
    (t.1, t.2.1, Event.doubleBlock vec :: t.2.2)

/-- the loop `for block in self.single_blocks: img = block(...)`,
recording one event per block application. -/
def runSingleBlocks :
    List SBlock → Tensor → Tensor → Tensor → Tensor × List Event
  | [], img, _, _ => (img, [])
  | blk :: rest, img, vec, pe =>
    let r := blk img vec pe
    let t := runSingleBlocks rest r vec pe
    (t.1, Event.singleBlock vec :: t.2)

/-- lines 111-122 of the source (the part of forward_orig after the
conditioning vector is assembled): positional embedding of the
concatenated ids, the double-stream stack, the txt/img concatenation,
the single-stream stack, the slice dropping the txt tokens, and the
final projection. -/
def Flux.run_streams (m : Flux) (img txt vec ids : Tensor) :
    Tensor × List Event :=
  let pe := m.pe_embedder ids
  let d := runDoubleBlocks m.double_blocks img txt vec pe
  let img3 := Tensor.cat1 d.2.1 d.1
  let s := runSingleBlocks m.single_blocks img3 vec pe
  let img5 := (s.1).slice1 ((d.2.1).shape.getD 1 0)
  (m.final_layer img5 vec,
   Event.peCall ids ::
     (d.2.2 ++ Event.concatStreams :: (s.2 ++ [Event.finalLayer vec])))

/-- `Flux.forward_orig`.  ValueError is modelled as `Except.error` with
the source's message (the apostrophe of "Didn't" is elided).  The
instrumentation returns the event trace next to the output tensor. -/
def Flux.forward_orig (m : Flux) (img img_ids txt txt_ids timesteps y : Tensor)
    (guidance : Option Tensor) : Except String (Tensor × List Event) :=
  if img.ndim ≠ 3 ∨ txt.ndim ≠ 3 then
    .error "Input img and txt tensors must have 3 dimensions."
  else
    let img1 := m.img_in img
    let vec1 := m.time_in (m.timestep_embedding timesteps 256)
    let vecE : Except String Tensor :=
      if m.params.guidance_embed then
        match guidance with
        | none => .error "Didnt get guidance strength for guidance distilled model."
        | some g =>
          .ok (vec1.add (m.guidance_in.apply (m.timestep_embedding g 256)))
      else .ok vec1
    match vecE with
    | .error e => .error e
    | .ok vec2 =>
      m.run_streams img1 (m.txt_in txt) (vec2.add (m.vector_in y))
        (Tensor.cat1 txt_ids img_ids) |> .ok

/-- the broadcast in-place update `t[..., k] = t[..., k] + v` of the
source, where v depends on the first two coordinates (the linspace
column/row broadcasts). -/
def addChannel (t : Tensor) (k : Nat) (v : Nat → Nat → Int) : Tensor :=
  ⟨t.shape,
   fun idx =>
     if idx.getD 2 0 = k then t.data idx + v (idx.getD 0 0) (idx.getD 1 0)
     else t.data idx⟩

/-- the img_ids grid of `Flux.forward`: zeros of shape (h_len, w_len, 3),
channel 1 plus the row index (linspace(0, h_len-1, h_len) broadcast over
columns), channel 2 plus the column index (linspace(0, w_len-1, w_len)
broadcast over rows). -/
def mkImgIds (h_len w_len : Nat) : Tensor :=
  addChannel
    (addChannel (Tensor.zeros [h_len, w_len, 3]) 1 fun i _ => (i : Int))
    2 fun _ j => (j : Int)

/-- the einops repeat "h w c -> b (h w) c" applied to img_ids. -/
def repeatBatch (t : Tensor) (b : Nat) : Tensor :=
  ⟨[b, t.shape.getD 0 0 * t.shape.getD 1 0, t.shape.getD 2 0],
   fun idx =>
     t.data [idx.getD 1 0 / t.shape.getD 1 0,
       idx.getD 1 0 % t.shape.getD 1 0, idx.getD 2 0]⟩

/-- `Flux.forward`: patch embedding of x, construction of the image and
text positional ids, the call to forward_orig, and the inverse patch
rearrange of the result. -/
def Flux.forward (m : Flux) (x timestep context y : Tensor)
    (guidance : Option Tensor) : Except String (Tensor × List Event) :=
  let bs := x.shape.getD 0 0
  let img := patchify x
  let h_len := x.shape.getD 2 0 / 2
  let w_len := x.shape.getD 3 0 / 2
  let img_ids := repeatBatch (mkImgIds h_len w_len) bs
  let txt_ids := Tensor.zeros [bs, context.shape.getD 1 0, 3]
  (m.forward_orig img img_ids context txt_ids timestep y guidance).map
    fun r => (unpatchify r.1 h_len w_len, r.2)

/-- shape agreement on the batch and sequence dimensions, with equal
rank: what the opaque layers are assumed to preserve where the claims
need it. -/
def ShapeKeep (a b : Tensor) : Prop :=
  a.shape.getD 0 0 = b.shape.getD 0 0 ∧
    a.shape.getD 1 0 = b.shape.getD 1 0 ∧ a.shape.length = b.shape.length

/-- a layer function preserving batch and sequence dims and rank. -/
def keepsBatchSeq (f : Tensor → Tensor) : Prop := ∀ t, ShapeKeep (f t) t

/-- a double-stream block preserving batch/sequence dims and rank of
both of its streams. -/
def dblKeepsBatchSeq (blk : DBlock) : Prop :=
  ∀ i t v p, ShapeKeep (blk i t v p).1 i ∧ ShapeKeep (blk i t v p).2 t

/-- a single-stream block preserving batch/sequence dims and rank. -/
def sglKeepsBatchSeq (blk : SBlock) : Prop :=
  ∀ i v p, ShapeKeep (blk i v p) i

/-! Concrete fixtures used by the witness theorems. -/

/-- an `operations` object whose Linear factory returns the identity. -/
def opsId : Operations := ⟨fun _ _ _ => fun t => t⟩

/-- a layers library whose layers are identities (blocks pass both
streams through). -/
def libId : LayersLib :=
  { timestep_embedding := fun t _ => t
    MLPEmbedder := fun _ _ => fun t => t
    DoubleStreamBlock := fun _ _ _ _ => fun i t _ _ => (i, t)
    SingleStreamBlock := fun _ _ _ => fun i _ _ => i
    LastLayer := fun _ _ _ => fun t _ => t
    EmbedND := fun _ _ _ => fun t => t }

/-- a small valid parameter set (hidden 8 divisible by 2 heads, axes_dim
summing to the positional dim 4). -/
def testParams : FluxParams :=
  { in_channels := 4
    vec_in_dim := 2
    context_in_dim := 3
    hidden_size := 8
    mlpRat := 4
    num_heads := 2
    depth := 2
    depth_single_blocks := 1
    axes_dim := [1, 3]
    theta := 10000
    qkv_bias := true
    guidance_embed := false }

/-- a parameter set failing the divisibility check. -/
def badHeadsParams : FluxParams := { testParams with hidden_size := 7 }

/-- a parameter set passing divisibility but failing the axes_dim sum
check. -/
def badAxesParams : FluxParams := { testParams with axes_dim := [1, 1] }

/-- a concrete model with identity layers and two double / one single
block, guidance_embed false. -/
def testModel : Flux :=
  { params := testParams
    in_channels := 4
    out_channels := 4
    hidden_size := 8
    num_heads := 2
    timestep_embedding := fun t _ => t
    pe_embedder := fun t => t
    img_in := fun t => t
    time_in := fun t => t
    vector_in := fun t => t
    guidance_in := GuidanceIn.identity
    txt_in := fun t => t
    double_blocks := [fun i t _ _ => (i, t), fun i t _ _ => (i, t)]
    single_blocks := [fun i _ _ => i]
    final_layer := fun t _ => t }

/-- testModel with guidance_embed true and an embedder guidance_in. -/
def guidModel : Flux :=
  { testModel with
    params := { testParams with guidance_embed := true }
    guidance_in := GuidanceIn.embedder fun t => t }

/-- a model whose final layer produces the out_channels feature size and
whose other layers are identities; used for the shape claims. -/
def shapeModel : Flux :=
  { testModel with
    final_layer := fun t _ =>
      ⟨[t.shape.getD 0 0, t.shape.getD 1 0, 4], fun _ => 0⟩ }

/-- a 3-dimensional zero tensor standing in for img. -/
def imgT : Tensor := Tensor.zeros [1, 2, 4]

/-- a 3-dimensional zero tensor standing in for txt. -/
def txtT : Tensor := Tensor.zeros [1, 3, 3]

/-- a 2-dimensional tensor (invalid rank for forward_orig). -/
def img2T : Tensor := Tensor.zeros [1, 2]

/-- a scalar-shaped tensor for timesteps / y / guidance. -/
def scalarT : Tensor := Tensor.zeros [1]

/-- a 4-dimensional image tensor of shape (1, 1, 2, 2) with distinct
entries. -/
def xT : Tensor :=
  ⟨[1, 1, 2, 2], fun idx => (idx.getD 2 0 : Int) * 2 + (idx.getD 3 0 : Int) + 1⟩

/-- a 4-dimensional image tensor of shape (1, 4, 2, 2), whose channel
count equals testModel's in_channels. -/
def x4T : Tensor := Tensor.zeros [1, 4, 2, 2]

/-! Helper lemmas. -/

@[simp] theorem shape_mk (s : List Nat) (d : List Nat → Int) :
    (Tensor.mk s d).shape = s := rfl

@[simp] theorem data_mk (s : List Nat) (d : List Nat → Int) (idx : List Nat) :
    (Tensor.mk s d).data idx = d idx := rfl

@[simp] theorem getD_c0 (a : Nat) (l : List Nat) : (a :: l).getD 0 0 = a := rfl

@[simp] theorem getD_c1 (a b : Nat) (l : List Nat) :
    (a :: b :: l).getD 1 0 = b := rfl

@[simp] theorem getD_c2 (a b c : Nat) (l : List Nat) :
    (a :: b :: c :: l).getD 2 0 = c := rfl

@[simp] theorem getD_c3 (a b c e : Nat) (l : List Nat) :
    (a :: b :: c :: e :: l).getD 3 0 = e := rfl

theorem grid_div_mod (i j w : Nat) (hj : j < w) :
    (i * w + j) / w = i ∧ (i * w + j) % w = j := by
  have hw : 0 < w := Nat.lt_of_le_of_lt (Nat.zero_le j) hj
  constructor
  · rw [Nat.add_comm, Nat.mul_comm, Nat.add_mul_div_left j i hw,
      Nat.div_eq_of_lt hj]
    omega
  · rw [Nat.add_comm, Nat.mul_comm, Nat.add_mul_mod_self_left,
      Nat.mod_eq_of_lt hj]

/-- C2: the patch rearrange of `Flux.forward` followed by the inverse
rearrange applied at the end of forward restores the input tensor, in
shape and in every in-bounds entry. -/
theorem patch_roundtrip (x : Tensor) (b c hl wl : Nat)
    (hx : x.shape = [b, c, 2 * hl, 2 * wl]) :
    (unpatchify (patchify x) hl wl).shape = x.shape ∧
    ∀ bi ci yy ww, yy < 2 * hl → ww < 2 * wl →
      (unpatchify (patchify x) hl wl).data [bi, ci, yy, ww] =
        x.data [bi, ci, yy, ww] := by
  rcases x with ⟨sh, dat⟩
  simp only [shape_mk] at hx
  subst hx
  constructor
  · simp only [unpatchify, patchify, shape_mk, getD_c0, getD_c1, getD_c2,
      getD_c3]
    have h4 : c * 4 / 4 = c := by omega
    rw [h4, Nat.mul_comm hl 2, Nat.mul_comm wl 2]
  · intro bi ci yy ww hy hw
    have hj : ww / 2 < wl := by omega
    have hdm := grid_div_mod (yy / 2) (ww / 2) wl hj
    have h2 : 2 * wl / 2 = wl := by omega
    show dat [bi,
        (ci * 4 + (yy % 2) * 2 + ww % 2) / 4,
        (yy / 2 * wl + ww / 2) / (2 * wl / 2) * 2 +
          (ci * 4 + (yy % 2) * 2 + ww % 2) % 4 / 2,
        (yy / 2 * wl + ww / 2) % (2 * wl / 2) * 2 +
          (ci * 4 + (yy % 2) * 2 + ww % 2) % 2] = dat [bi, ci, yy, ww]
    rw [h2, hdm.1, hdm.2]
    congr 1
    simp only [List.cons.injEq, and_true, true_and]
    omega

theorem runDoubleBlocks_events (bs : List DBlock) :
    ∀ img txt vec pe, (runDoubleBlocks bs img txt vec pe).2.2 =
      List.replicate bs.length (Event.doubleBlock vec) := by
  induction bs with
  | nil => intro img txt vec pe; rfl
  | cons blk rest ih =>
    intro img txt vec pe
    simp [runDoubleBlocks, ih, List.replicate_succ]

theorem runSingleBlocks_events (bs : List SBlock) :
    ∀ img vec pe, (runSingleBlocks bs img vec pe).2 =
      List.replicate bs.length (Event.singleBlock vec) := by
  induction bs with
  | nil => intro img vec pe; rfl
  | cons blk rest ih =>
    intro img vec pe
    simp [runSingleBlocks, ih, List.replicate_succ]

theorem run_streams_events (m : Flux) (img txt vec ids : Tensor) :
    (m.run_streams img txt vec ids).2 =
      Event.peCall ids ::
        (List.replicate m.double_blocks.length (Event.doubleBlock vec) ++
          Event.concatStreams ::
            (List.replicate m.single_blocks.length (Event.singleBlock vec) ++
              [Event.finalLayer vec])) := by
  simp [Flux.run_streams, runDoubleBlocks_events, runSingleBlocks_events]

theorem forward_orig_rank_error (m : Flux)
    (img img_ids txt txt_ids timesteps y : Tensor) (guidance : Option Tensor)
    (h : img.ndim ≠ 3 ∨ txt.ndim ≠ 3) :
    m.forward_orig img img_ids txt txt_ids timesteps y guidance =
      .error "Input img and txt tensors must have 3 dimensions." := by
  unfold Flux.forward_orig
  rw [if_pos h]

theorem forward_orig_guid_none (m : Flux)
    (img img_ids txt txt_ids timesteps y : Tensor)
    (hge : m.params.guidance_embed = true)
    (h1 : img.ndim = 3) (h2 : txt.ndim = 3) :
    m.forward_orig img img_ids txt txt_ids timesteps y none =
      .error "Didnt get guidance strength for guidance distilled model." := by
  unfold Flux.forward_orig
  rw [if_neg (by simp [h1, h2])]
  simp [hge]

theorem forward_orig_ok_noembed (m : Flux)
    (img img_ids txt txt_ids timesteps y : Tensor) (guidance : Option Tensor)
    (hge : m.params.guidance_embed = false)
    (h1 : img.ndim = 3) (h2 : txt.ndim = 3) :
    m.forward_orig img img_ids txt txt_ids timesteps y guidance =
      .ok (m.run_streams (m.img_in img) (m.txt_in txt)
        ((m.time_in (m.timestep_embedding timesteps 256)).add (m.vector_in y))
        (Tensor.cat1 txt_ids img_ids)) := by
  unfold Flux.forward_orig
  rw [if_neg (by simp [h1, h2])]
  simp [hge]

theorem forward_orig_ok_guid (m : Flux)
    (img img_ids txt txt_ids timesteps y g : Tensor)
    (hge : m.params.guidance_embed = true)
    (h1 : img.ndim = 3) (h2 : txt.ndim = 3) :
    m.forward_orig img img_ids txt txt_ids timesteps y (some g) =
      .ok (m.run_streams (m.img_in img) (m.txt_in txt)
        (((m.time_in (m.timestep_embedding timesteps 256)).add
          (m.guidance_in.apply (m.timestep_embedding g 256))).add
          (m.vector_in y))
        (Tensor.cat1 txt_ids img_ids)) := by
  unfold Flux.forward_orig
  rw [if_neg (by simp [h1, h2])]
  simp [hge]

/-- C1: on every valid input (3-dimensional img and txt, guidance
present when the model requires it), forward_orig applies the whole
double-stream stack first, then concatenates the streams, then applies
the whole single-stream stack, then the final projection: the event
trace is exactly the double events, the concatenation, the single
events, and the final layer, in that order, preceded only by the
positional embedding of the ids; in particular no single-stream block
runs before any double-stream block. -/
theorem double_before_single (m : Flux)
    (img img_ids txt txt_ids timesteps y : Tensor) (guidance : Option Tensor)
    (h1 : img.ndim = 3) (h2 : txt.ndim = 3)
    (hg : m.params.guidance_embed = false ∨ ∃ g, guidance = some g) :
    (m.forward_orig img img_ids txt txt_ids timesteps y guidance).map
        (fun p => p.2.map Event.kind) =
      .ok (EKind.pe ::
        (List.replicate m.double_blocks.length EKind.double ++
          EKind.concat ::
            (List.replicate m.single_blocks.length EKind.single ++
              [EKind.final]))) := by
  rcases hg with hge | ⟨g, hgg⟩
  · rw [forward_orig_ok_noembed m img img_ids txt txt_ids timesteps y guidance
      hge h1 h2]
    simp [Except.map, run_streams_events, Event.kind]
  · subst hgg
    rcases hge : m.params.guidance_embed with _ | _
    · rw [forward_orig_ok_noembed m img img_ids txt txt_ids timesteps y
        (some g) hge h1 h2]
      simp [Except.map, run_streams_events, Event.kind]
    · rw [forward_orig_ok_guid m img img_ids txt txt_ids timesteps y g
        hge h1 h2]
      simp [Except.map, run_streams_events, Event.kind]

/-- C1 witness: the trace shape at a concrete model with two double
blocks and one single block. -/
theorem double_before_single_witness :
    imgT.ndim = 3 ∧ txtT.ndim = 3 ∧
    (testModel.params.guidance_embed = false ∨
      ∃ g, (none : Option Tensor) = some g) ∧
    (testModel.forward_orig imgT imgT txtT txtT scalarT scalarT none).map
        (fun p => p.2.map Event.kind) =
      .ok (EKind.pe ::
        (List.replicate testModel.double_blocks.length EKind.double ++
          EKind.concat ::
            (List.replicate testModel.single_blocks.length EKind.single ++
              [EKind.final]))) :=
  ⟨rfl, rfl, Or.inl rfl,
    double_before_single testModel imgT imgT txtT txtT scalarT scalarT none
      rfl rfl (Or.inl rfl)⟩

/-- C3: with 3-dimensional img and txt, a guidance-distilled model
(guidance_embed true) raises ValueError exactly when guidance is None
(None errors, any Some succeeds), and on Some g the conditioning vector
handed to the final layer includes the added guidance embedding
guidance_in(timestep_embedding(g, 256)); with guidance_embed false the
guidance argument never affects the result. -/
theorem guidance_conditioning (m : Flux)
    (img img_ids txt txt_ids timesteps y : Tensor)
    (h1 : img.ndim = 3) (h2 : txt.ndim = 3) :
    (m.params.guidance_embed = true →
      m.forward_orig img img_ids txt txt_ids timesteps y none =
        .error "Didnt get guidance strength for guidance distilled model." ∧
      ∀ g : Tensor, ∃ r,
        m.forward_orig img img_ids txt txt_ids timesteps y (some g) =
          .ok r ∧
        Event.finalLayer
          (((m.time_in (m.timestep_embedding timesteps 256)).add
            (m.guidance_in.apply (m.timestep_embedding g 256))).add
            (m.vector_in y)) ∈ r.2) ∧
    (m.params.guidance_embed = false →
      ∀ g1 g2 : Option Tensor,
        m.forward_orig img img_ids txt txt_ids timesteps y g1 =
          m.forward_orig img img_ids txt txt_ids timesteps y g2) := by
  constructor
  · intro hge
    refine ⟨forward_orig_guid_none m img img_ids txt txt_ids timesteps y
      hge h1 h2, ?_⟩
    intro g
    refine ⟨_, forward_orig_ok_guid m img img_ids txt txt_ids timesteps y g
      hge h1 h2, ?_⟩
    rw [run_streams_events]
    simp
  · intro hge g1 g2
    simp [Flux.forward_orig, hge]

/-- C3 witness: the None error at a concrete guidance-distilled model. -/
theorem guidance_conditioning_witness :
    imgT.ndim = 3 ∧ txtT.ndim = 3 ∧
    guidModel.params.guidance_embed = true ∧
    guidModel.forward_orig imgT imgT txtT txtT scalarT scalarT none =
      .error "Didnt get guidance strength for guidance distilled model." :=
  ⟨rfl, rfl, rfl,
    ((guidance_conditioning guidModel imgT imgT txtT txtT scalarT scalarT
      rfl rfl).1 rfl).1⟩

/-- C4: with valid inputs, every double-stream block event, every
single-stream block event and the final-layer event in the forward_orig
trace carries the same conditioning vector, namely
time_in(timestep_embedding(timesteps, 256)) + vector_in(y), with the
guidance embedding added exactly when guidance_embed is true; no other
tensor (in particular neither img nor txt) enters this vector. -/
theorem conditioning_vector (m : Flux)
    (img img_ids txt txt_ids timesteps y : Tensor)
    (h1 : img.ndim = 3) (h2 : txt.ndim = 3) :
    (m.params.guidance_embed = false →
      ∀ guidance : Option Tensor, ∃ r,
        m.forward_orig img img_ids txt txt_ids timesteps y guidance =
          .ok r ∧
        Event.finalLayer
          ((m.time_in (m.timestep_embedding timesteps 256)).add
            (m.vector_in y)) ∈ r.2 ∧
        ∀ e ∈ r.2, e.vecArg = none ∨
          e.vecArg = some ((m.time_in (m.timestep_embedding timesteps 256)).add
            (m.vector_in y))) ∧
    (m.params.guidance_embed = true →
      ∀ g : Tensor, ∃ r,
        m.forward_orig img img_ids txt txt_ids timesteps y (some g) =
          .ok r ∧
        Event.finalLayer
          (((m.time_in (m.timestep_embedding timesteps 256)).add
            (m.guidance_in.apply (m.timestep_embedding g 256))).add
            (m.vector_in y)) ∈ r.2 ∧
        ∀ e ∈ r.2, e.vecArg = none ∨
          e.vecArg =
            some (((m.time_in (m.timestep_embedding timesteps 256)).add
              (m.guidance_in.apply (m.timestep_embedding g 256))).add
              (m.vector_in y))) := by
  constructor
  · intro hge guidance
    refine ⟨_, forward_orig_ok_noembed m img img_ids txt txt_ids timesteps
      y guidance hge h1 h2, ?_, ?_⟩
    · rw [run_streams_events]
      simp
    · intro e he
      rw [run_streams_events] at he
      simp only [List.mem_cons, List.mem_append, List.mem_replicate,
        List.not_mem_nil, or_false] at he
      rcases he with rfl | ⟨-, rfl⟩ | rfl | ⟨-, rfl⟩ | rfl <;>
        simp [Event.vecArg]
  · intro hge g
    refine ⟨_, forward_orig_ok_guid m img img_ids txt txt_ids timesteps
      y g hge h1 h2, ?_, ?_⟩
    · rw [run_streams_events]
      simp
    · intro e he
      rw [run_streams_events] at he
      simp only [List.mem_cons, List.mem_append, List.mem_replicate,
        List.not_mem_nil, or_false] at he
      rcases he with rfl | ⟨-, rfl⟩ | rfl | ⟨-, rfl⟩ | rfl <;>
        simp [Event.vecArg]

/-- C4 witness: the conditioning vector property at a concrete model
without guidance embedding. -/
theorem conditioning_vector_witness :
    imgT.ndim = 3 ∧ txtT.ndim = 3 ∧
    testModel.params.guidance_embed = false ∧
    (∃ r,
      testModel.forward_orig imgT imgT txtT txtT scalarT scalarT none =
        .ok r ∧
      Event.finalLayer
        ((testModel.time_in (testModel.timestep_embedding scalarT 256)).add
          (testModel.vector_in scalarT)) ∈ r.2 ∧
      ∀ e ∈ r.2, e.vecArg = none ∨
        e.vecArg =
          some ((testModel.time_in
            (testModel.timestep_embedding scalarT 256)).add
            (testModel.vector_in scalarT))) :=
  ⟨rfl, rfl, rfl,
    (conditioning_vector testModel imgT imgT txtT txtT scalarT scalarT
      rfl rfl).1 rfl none⟩

/-- C10: forward_orig fails with the rank ValueError precisely when img
or txt is not 3-dimensional; when both are 3-dimensional the rank check
passes and the computation proceeds (either to the guidance ValueError
or to a successful result). -/
theorem rank_check (m : Flux)
    (img img_ids txt txt_ids timesteps y : Tensor) (guidance : Option Tensor) :
    ((img.ndim ≠ 3 ∨ txt.ndim ≠ 3) →
      m.forward_orig img img_ids txt txt_ids timesteps y guidance =
        .error "Input img and txt tensors must have 3 dimensions.") ∧
    (img.ndim = 3 → txt.ndim = 3 →
      m.forward_orig img img_ids txt txt_ids timesteps y guidance =
        .error "Didnt get guidance strength for guidance distilled model." ∨
      ∃ r, m.forward_orig img img_ids txt txt_ids timesteps y guidance =
        .ok r) := by
  constructor
  · exact fun h =>
      forward_orig_rank_error m img img_ids txt txt_ids timesteps y guidance h
  · intro h1 h2
    rcases hge : m.params.guidance_embed with _ | _
    · exact Or.inr ⟨_, forward_orig_ok_noembed m img img_ids txt txt_ids
        timesteps y guidance hge h1 h2⟩
    · cases guidance with
      | none => exact Or.inl (forward_orig_guid_none m img img_ids txt
          txt_ids timesteps y hge h1 h2)
      | some g => exact Or.inr ⟨_, forward_orig_ok_guid m img img_ids txt
          txt_ids timesteps y g hge h1 h2⟩

/-- C10 witness: the rank error at a concrete 2-dimensional img. -/
theorem rank_check_witness :
    (img2T.ndim ≠ 3 ∨ txtT.ndim ≠ 3) ∧
    testModel.forward_orig img2T imgT txtT txtT scalarT scalarT none =
      .error "Input img and txt tensors must have 3 dimensions." :=
  ⟨Or.inl (by decide),
    (rank_check testModel img2T imgT txtT txtT scalarT scalarT none).1
      (Or.inl (by decide))⟩

/-- C8: the constructor raises the divisibility ValueError when
hidden_size is not divisible by num_heads, raises the positional-dim
ValueError when it is divisible but the axes_dim sum differs from
hidden_size // num_heads, and succeeds exactly when both checks hold. -/
theorem init_validation (lib : LayersLib) (ops : Operations)
    (params : FluxParams) :
    ((∃ m, Flux.init lib ops params = .ok m) ↔
      (params.hidden_size % params.num_heads = 0 ∧
        params.axes_dim.sum = params.hidden_size / params.num_heads)) ∧
    (params.hidden_size % params.num_heads ≠ 0 →
      Flux.init lib ops params =
        .error ("Hidden size " ++ toString params.hidden_size ++
          " must be divisible by num_heads " ++
          toString params.num_heads)) ∧
    (params.hidden_size % params.num_heads = 0 →
      params.axes_dim.sum ≠ params.hidden_size / params.num_heads →
      Flux.init lib ops params =
        .error ("Got " ++ toString params.axes_dim ++
          " but expected positional dim " ++
          toString (params.hidden_size / params.num_heads))) := by
  refine ⟨⟨?_, ?_⟩, ?_, ?_⟩
  · rintro ⟨m, hm⟩
    unfold Flux.init at hm
    by_cases hmod : params.hidden_size % params.num_heads = 0
    · rw [if_neg (by simp [hmod])] at hm
      by_cases hsum :
          params.axes_dim.sum = params.hidden_size / params.num_heads
      · exact ⟨hmod, hsum⟩
      · rw [if_pos hsum] at hm
        exact Except.noConfusion hm
    · rw [if_pos hmod] at hm
      exact Except.noConfusion hm
  · rintro ⟨hmod, hsum⟩
    unfold Flux.init
    rw [if_neg (by simp [hmod]), if_neg (by simp [hsum])]
    exact ⟨_, rfl⟩
  · intro hmod
    unfold Flux.init
    rw [if_pos hmod]
  · intro hmod hsum
    unfold Flux.init
    rw [if_neg (by simp [hmod]), if_pos hsum]

/-- C8 witness: the divisibility error at hidden_size 7, num_heads 2. -/
theorem init_validation_witness :
    badHeadsParams.hidden_size % badHeadsParams.num_heads ≠ 0 ∧
    Flux.init libId opsId badHeadsParams =
      .error ("Hidden size " ++ toString badHeadsParams.hidden_size ++
        " must be divisible by num_heads " ++
        toString badHeadsParams.num_heads) :=
  ⟨by decide, (init_validation libId opsId badHeadsParams).2.1 (by decide)⟩

/-- C7: for parameters passing the two constructor checks, the built
model has exactly depth double-stream blocks, exactly
depth_single_blocks single-stream blocks, the image and text input
projections, the timestep and vector embedders, a guidance embedder
exactly when guidance_embed (identity otherwise), the positional
embedder, and one final projection layer built from hidden_size and
out_channels = in_channels. -/
theorem init_composition (lib : LayersLib) (ops : Operations)
    (params : FluxParams)
    (hmod : params.hidden_size % params.num_heads = 0)
    (hsum : params.axes_dim.sum = params.hidden_size / params.num_heads) :
    ∃ m, Flux.init lib ops params = .ok m ∧
      m.double_blocks.length = params.depth ∧
      m.single_blocks.length = params.depth_single_blocks ∧
      m.guidance_in = (if params.guidance_embed then
        GuidanceIn.embedder (lib.MLPEmbedder 256 params.hidden_size)
        else GuidanceIn.identity) ∧
      m.img_in = ops.Linear params.in_channels params.hidden_size true ∧
      m.txt_in = ops.Linear params.context_in_dim params.hidden_size true ∧
      m.time_in = lib.MLPEmbedder 256 params.hidden_size ∧
      m.vector_in = lib.MLPEmbedder params.vec_in_dim params.hidden_size ∧
      m.pe_embedder = lib.EmbedND (params.hidden_size / params.num_heads)
        params.theta params.axes_dim ∧
      m.final_layer = lib.LastLayer params.hidden_size 1 params.in_channels ∧
      m.out_channels = m.in_channels := by
  unfold Flux.init
  rw [if_neg (by simp [hmod]), if_neg (by simp [hsum])]
  exact ⟨_, rfl, by simp, by simp, rfl, rfl, rfl, rfl, rfl, rfl, rfl, rfl⟩

/-- C7 witness: the composition at a concrete valid parameter set. -/
theorem init_composition_witness :
    testParams.hidden_size % testParams.num_heads = 0 ∧
    testParams.axes_dim.sum = testParams.hidden_size / testParams.num_heads ∧
    ∃ m, Flux.init libId opsId testParams = .ok m ∧
      m.double_blocks.length = testParams.depth ∧
      m.single_blocks.length = testParams.depth_single_blocks ∧
      m.guidance_in = (if testParams.guidance_embed then
        GuidanceIn.embedder (libId.MLPEmbedder 256 testParams.hidden_size)
        else GuidanceIn.identity) ∧
      m.img_in = opsId.Linear testParams.in_channels testParams.hidden_size
        true ∧
      m.txt_in = opsId.Linear testParams.context_in_dim
        testParams.hidden_size true ∧
      m.time_in = libId.MLPEmbedder 256 testParams.hidden_size ∧
      m.vector_in = libId.MLPEmbedder testParams.vec_in_dim
        testParams.hidden_size ∧
      m.pe_embedder = libId.EmbedND
        (testParams.hidden_size / testParams.num_heads) testParams.theta
        testParams.axes_dim ∧
      m.final_layer = libId.LastLayer testParams.hidden_size 1
        testParams.in_channels ∧
      m.out_channels = m.in_channels :=
  ⟨by decide, by decide,
    init_composition libId opsId testParams (by decide) (by decide)⟩

@[simp] theorem cat1_shape (a b : Tensor) :
    (Tensor.cat1 a b).shape =
      a.shape.set 1 (a.shape.getD 1 0 + b.shape.getD 1 0) := rfl

@[simp] theorem slice1_shape (t : Tensor) (n : Nat) :
    (t.slice1 n).shape = t.shape.set 1 (t.shape.getD 1 0 - n) := rfl

theorem getD0_set1 (l : List Nat) (v : Nat) :
    (l.set 1 v).getD 0 0 = l.getD 0 0 := by
  rcases l with _ | ⟨a, _ | ⟨b, t⟩⟩ <;> rfl

theorem getD1_set1 (l : List Nat) (v : Nat) (h : 2 ≤ l.length) :
    (l.set 1 v).getD 1 0 = v := by
  rcases l with _ | ⟨a, _ | ⟨b, t⟩⟩
  · simp at h
  · simp at h
  · rfl

theorem ShapeKeep.trans {a b c : Tensor} (h1 : ShapeKeep a b)
    (h2 : ShapeKeep b c) : ShapeKeep a c :=
  ⟨h1.1.trans h2.1, h1.2.1.trans h2.2.1, h1.2.2.trans h2.2.2⟩

theorem runDoubleBlocks_shape (bs : List DBlock)
    (hb : ∀ blk ∈ bs, dblKeepsBatchSeq blk) :
    ∀ img txt vec pe,
      ShapeKeep (runDoubleBlocks bs img txt vec pe).1 img ∧
      ShapeKeep (runDoubleBlocks bs img txt vec pe).2.1 txt := by
  induction bs with
  | nil => exact fun img txt vec pe => ⟨⟨rfl, rfl, rfl⟩, ⟨rfl, rfl, rfl⟩⟩
  | cons blk rest ih =>
    intro img txt vec pe
    have hblk := hb blk (List.mem_cons_self _ _)
    have hrest : ∀ b ∈ rest, dblKeepsBatchSeq b := fun b hbm =>
      hb b (List.mem_cons_of_mem _ hbm)
    have ih2 := ih hrest (blk img txt vec pe).1 (blk img txt vec pe).2 vec pe
    exact ⟨ShapeKeep.trans ih2.1 (hblk img txt vec pe).1,
      ShapeKeep.trans ih2.2 (hblk img txt vec pe).2⟩

theorem runSingleBlocks_shape (bs : List SBlock)
    (hb : ∀ blk ∈ bs, sglKeepsBatchSeq blk) :
    ∀ img vec pe, ShapeKeep (runSingleBlocks bs img vec pe).1 img := by
  induction bs with
  | nil => exact fun img vec pe => ⟨rfl, rfl, rfl⟩
  | cons blk rest ih =>
    intro img vec pe
    have hblk := hb blk (List.mem_cons_self _ _)
    have hrest : ∀ b ∈ rest, sglKeepsBatchSeq b := fun b hbm =>
      hb b (List.mem_cons_of_mem _ hbm)
    exact ShapeKeep.trans (ih hrest (blk img vec pe) vec pe)
      (hblk img vec pe)

theorem run_streams_shape (m : Flux) (img txt vec ids : Tensor)
    (hd : ∀ blk ∈ m.double_blocks, dblKeepsBatchSeq blk)
    (hs : ∀ blk ∈ m.single_blocks, sglKeepsBatchSeq blk)
    (hf : ∀ t v, (m.final_layer t v).shape =
      [t.shape.getD 0 0, t.shape.getD 1 0, m.out_channels])
    (ht3 : txt.shape.length = 3) :
    (m.run_streams img txt vec ids).1.shape =
      [txt.shape.getD 0 0, img.shape.getD 1 0, m.out_channels] := by
  simp only [Flux.run_streams]
  have hD := runDoubleBlocks_shape m.double_blocks hd img txt vec
    (m.pe_embedder ids)
  generalize hdq : runDoubleBlocks m.double_blocks img txt vec
    (m.pe_embedder ids) = d at hD ⊢
  have hS := runSingleBlocks_shape m.single_blocks hs
    (Tensor.cat1 d.2.1 d.1) vec (m.pe_embedder ids)
  generalize hsq : runSingleBlocks m.single_blocks (Tensor.cat1 d.2.1 d.1)
    vec (m.pe_embedder ids) = s at hS ⊢
  obtain ⟨⟨hi0, hi1, hil⟩, ht0, ht1, htl⟩ := hD
  obtain ⟨hs0, hs1, hsl⟩ := hS
  rw [hf]
  have hs3 : s.1.shape.length = 3 := by
    rw [hsl, cat1_shape, List.length_set, htl, ht3]
  have e0 : (s.1.slice1 (d.2.1.shape.getD 1 0)).shape.getD 0 0 =
      txt.shape.getD 0 0 := by
    rw [slice1_shape, getD0_set1, hs0, cat1_shape, getD0_set1, ht0]
  have e1 : (s.1.slice1 (d.2.1.shape.getD 1 0)).shape.getD 1 0 =
      img.shape.getD 1 0 := by
    rw [slice1_shape, getD1_set1 _ _ (by simp [hs3]), hs1, cat1_shape,
      getD1_set1 _ _ (by simp [htl, ht3]), ht1, hi1]
    omega
  rw [e0, e1]

/-- C6: on every valid input, with the opaque sub-layers preserving the
batch and sequence dimensions (as the real blocks do) and the final
layer producing its input's batch and sequence dims with out_channels
features, the tensor returned by forward_orig has sequence length equal
to the sequence length of the img argument, independent of the txt
sequence length: only the trailing image-token part of the concatenated
sequence survives the slice before the final layer. -/
theorem output_seq_len (m : Flux)
    (img img_ids txt txt_ids timesteps y : Tensor) (guidance : Option Tensor)
    (h1 : img.ndim = 3) (h2 : txt.ndim = 3)
    (hg : m.params.guidance_embed = false ∨ ∃ g, guidance = some g)
    (hi : keepsBatchSeq m.img_in) (ht : keepsBatchSeq m.txt_in)
    (hd : ∀ blk ∈ m.double_blocks, dblKeepsBatchSeq blk)
    (hs : ∀ blk ∈ m.single_blocks, sglKeepsBatchSeq blk)
    (hf : ∀ t v, (m.final_layer t v).shape =
      [t.shape.getD 0 0, t.shape.getD 1 0, m.out_channels]) :
    (m.forward_orig img img_ids txt txt_ids timesteps y guidance).map
      (fun p => p.1.shape.getD 1 0) = .ok (img.shape.getD 1 0) := by
  have htl3 : (m.txt_in txt).shape.length = 3 := by
    rw [(ht txt).2.2]
    exact h2
  rcases hg with hge | ⟨g, hgg⟩
  · rw [forward_orig_ok_noembed m img img_ids txt txt_ids timesteps y
      guidance hge h1 h2]
    simp only [Except.map]
    rw [run_streams_shape m _ _ _ _ hd hs hf htl3, getD_c1, (hi img).2.1]
  · subst hgg
    rcases hge : m.params.guidance_embed with _ | _
    · rw [forward_orig_ok_noembed m img img_ids txt txt_ids timesteps y
        (some g) hge h1 h2]
      simp only [Except.map]
      rw [run_streams_shape m _ _ _ _ hd hs hf htl3, getD_c1, (hi img).2.1]
    · rw [forward_orig_ok_guid m img img_ids txt txt_ids timesteps y g
        hge h1 h2]
      simp only [Except.map]
      rw [run_streams_shape m _ _ _ _ hd hs hf htl3, getD_c1, (hi img).2.1]

/-- C6 witness: the output sequence length at a concrete model whose
final layer emits out_channels features. -/
theorem output_seq_len_witness :
    imgT.ndim = 3 ∧ txtT.ndim = 3 ∧
    (shapeModel.params.guidance_embed = false ∨
      ∃ g, (none : Option Tensor) = some g) ∧
    keepsBatchSeq shapeModel.img_in ∧ keepsBatchSeq shapeModel.txt_in ∧
    (∀ blk ∈ shapeModel.double_blocks, dblKeepsBatchSeq blk) ∧
    (∀ blk ∈ shapeModel.single_blocks, sglKeepsBatchSeq blk) ∧
    (∀ t v, (shapeModel.final_layer t v).shape =
      [t.shape.getD 0 0, t.shape.getD 1 0, shapeModel.out_channels]) ∧
    (shapeModel.forward_orig imgT imgT txtT txtT scalarT scalarT none).map
      (fun p => p.1.shape.getD 1 0) = .ok (imgT.shape.getD 1 0) := by
  have hdb : ∀ blk ∈ shapeModel.double_blocks, dblKeepsBatchSeq blk := by
    intro blk hblk
    simp only [shapeModel, testModel, List.mem_cons, List.not_mem_nil,
      or_false] at hblk
    rcases hblk with rfl | rfl <;>
      exact fun i t v p => ⟨⟨rfl, rfl, rfl⟩, ⟨rfl, rfl, rfl⟩⟩
  have hsb : ∀ blk ∈ shapeModel.single_blocks, sglKeepsBatchSeq blk := by
    intro blk hblk
    simp only [shapeModel, testModel, List.mem_cons, List.not_mem_nil,
      or_false] at hblk
    rcases hblk with rfl
    exact fun i v p => ⟨rfl, rfl, rfl⟩
  exact ⟨rfl, rfl, Or.inl rfl, fun t => ⟨rfl, rfl, rfl⟩,
    fun t => ⟨rfl, rfl, rfl⟩, hdb, hsb, fun t v => rfl,
    output_seq_len shapeModel imgT imgT txtT txtT scalarT scalarT none
      rfl rfl (Or.inl rfl) (fun t => ⟨rfl, rfl, rfl⟩)
      (fun t => ⟨rfl, rfl, rfl⟩) hdb hsb (fun t v => rfl)⟩

@[simp] theorem patchify_shape (x : Tensor) :
    (patchify x).shape =
      [x.shape.getD 0 0, (x.shape.getD 2 0 / 2) * (x.shape.getD 3 0 / 2),
        x.shape.getD 1 0 * 4] := rfl

@[simp] theorem unpatchify_shape (u : Tensor) (h_len w_len : Nat) :
    (unpatchify u h_len w_len).shape =
      [u.shape.getD 0 0, u.shape.getD 2 0 / 4, h_len * 2, w_len * 2] := rfl

theorem unpat_run_shape (m : Flux) (x context vecT idsT : Tensor)
    (bs c hl wl Tc fc : Nat)
    (hx : x.shape = [bs, c, 2 * hl, 2 * wl])
    (hctx : context.shape = [bs, Tc, fc])
    (hout : m.out_channels = m.in_channels)
    (hin : m.in_channels = 4 * c)
    (ht : keepsBatchSeq m.txt_in)
    (hd : ∀ blk ∈ m.double_blocks, dblKeepsBatchSeq blk)
    (hs : ∀ blk ∈ m.single_blocks, sglKeepsBatchSeq blk)
    (hf : ∀ t v, (m.final_layer t v).shape =
      [t.shape.getD 0 0, t.shape.getD 1 0, m.out_channels]) :
    (unpatchify
      (m.run_streams (m.img_in (patchify x)) (m.txt_in context) vecT idsT).1
      (x.shape.getD 2 0 / 2) (x.shape.getD 3 0 / 2)).shape = x.shape := by
  have htl3 : (m.txt_in context).shape.length = 3 := by
    rw [(ht context).2.2]
    simp [hctx]
  rw [unpatchify_shape, run_streams_shape m _ _ _ _ hd hs hf htl3]
  simp only [getD_c0, getD_c2]
  rw [(ht context).1, hout, hin, hctx, hx]
  simp only [getD_c0, getD_c2, getD_c3]
  have e2 : 4 * c / 4 = c := by omega
  have e3 : 2 * hl / 2 * 2 = 2 * hl := by omega
  have e4 : 2 * wl / 2 * 2 = 2 * wl := by omega
  rw [e2, e3, e4]

/-- C9 (amended): for every input x of shape (bs, c, h, w) with h and w
even and with four times c equal to the model's in_channels (the
constructor feeds the patched feature size c*ph*pw to img_in), and with
shape-preserving blocks and a final layer emitting out_channels
features, forward returns a tensor of the same shape (bs, c, h, w) as x,
using out_channels = in_channels.  The claim's stated precondition
"c equal to the model's in_channels" is refuted by the counterexample
below: in_channels counts the features of a patched token, which is 4c,
not c. -/
theorem forward_shape (m : Flux) (x timestep context y : Tensor)
    (guidance : Option Tensor) (bs c hl wl Tc fc : Nat)
    (hx : x.shape = [bs, c, 2 * hl, 2 * wl])
    (hctx : context.shape = [bs, Tc, fc])
    (hout : m.out_channels = m.in_channels)
    (hin : m.in_channels = 4 * c)
    (hg : m.params.guidance_embed = false ∨ ∃ g, guidance = some g)
    (ht : keepsBatchSeq m.txt_in)
    (hd : ∀ blk ∈ m.double_blocks, dblKeepsBatchSeq blk)
    (hs : ∀ blk ∈ m.single_blocks, sglKeepsBatchSeq blk)
    (hf : ∀ t v, (m.final_layer t v).shape =
      [t.shape.getD 0 0, t.shape.getD 1 0, m.out_channels]) :
    (m.forward x timestep context y guidance).map (fun p => p.1.shape) =
      .ok x.shape := by
  have h1 : (patchify x).ndim = 3 := rfl
  have h2 : context.ndim = 3 := by simp [Tensor.ndim, hctx]
  simp only [Flux.forward]
  rcases hg with hge | ⟨g, hgg⟩
  · rw [forward_orig_ok_noembed m (patchify x) _ context _ timestep y
      guidance hge h1 h2]
    simp only [Except.map]
    rw [unpat_run_shape m x context _ _ bs c hl wl Tc fc hx hctx hout hin
      ht hd hs hf]
  · subst hgg
    rcases hge : m.params.guidance_embed with _ | _
    · rw [forward_orig_ok_noembed m (patchify x) _ context _ timestep y
        (some g) hge h1 h2]
      simp only [Except.map]
      rw [unpat_run_shape m x context _ _ bs c hl wl Tc fc hx hctx hout hin
        ht hd hs hf]
    · rw [forward_orig_ok_guid m (patchify x) _ context _ timestep y g
        hge h1 h2]
      simp only [Except.map]
      rw [unpat_run_shape m x context _ _ bs c hl wl Tc fc hx hctx hout hin
        ht hd hs hf]

/-- C9 counterexample: a model with in_channels = out_channels = 4,
shape-preserving blocks and a final layer emitting out_channels = 4
features, applied to an input of shape (1, 4, 2, 2) whose channel count
c = 4 equals the model's in_channels as the claim demands: forward
returns shape (1, 1, 2, 2), not (1, 4, 2, 2). -/
theorem forward_shape_counterexample :
    x4T.shape.getD 1 0 = shapeModel.in_channels ∧
    shapeModel.out_channels = shapeModel.in_channels ∧
    x4T.shape = [1, 4, 2, 2] ∧
    (shapeModel.forward x4T scalarT txtT scalarT none).map
      (fun p => p.1.shape) = .ok [1, 1, 2, 2] ∧
    ([1, 1, 2, 2] : List Nat) ≠ [1, 4, 2, 2] :=
  ⟨rfl, rfl, rfl, rfl, by decide⟩

/-- C9 witness: the amended shape preservation at a concrete model with
in_channels = 4 and an input with c = 1 channels. -/
theorem forward_shape_witness :
    xT.shape = [1, 1, 2 * 1, 2 * 1] ∧ txtT.shape = [1, 3, 3] ∧
    shapeModel.out_channels = shapeModel.in_channels ∧
    shapeModel.in_channels = 4 * 1 ∧
    (shapeModel.params.guidance_embed = false ∨
      ∃ g, (none : Option Tensor) = some g) ∧
    keepsBatchSeq shapeModel.txt_in ∧
    (∀ blk ∈ shapeModel.double_blocks, dblKeepsBatchSeq blk) ∧
    (∀ blk ∈ shapeModel.single_blocks, sglKeepsBatchSeq blk) ∧
    (∀ t v, (shapeModel.final_layer t v).shape =
      [t.shape.getD 0 0, t.shape.getD 1 0, shapeModel.out_channels]) ∧
    (shapeModel.forward xT scalarT txtT scalarT none).map
      (fun p => p.1.shape) = .ok xT.shape := by
  have hdb : ∀ blk ∈ shapeModel.double_blocks, dblKeepsBatchSeq blk := by
    intro blk hblk
    simp only [shapeModel, testModel, List.mem_cons, List.not_mem_nil,
      or_false] at hblk
    rcases hblk with rfl | rfl <;>
      exact fun i t v p => ⟨⟨rfl, rfl, rfl⟩, ⟨rfl, rfl, rfl⟩⟩
  have hsb : ∀ blk ∈ shapeModel.single_blocks, sglKeepsBatchSeq blk := by
    intro blk hblk
    simp only [shapeModel, testModel, List.mem_cons, List.not_mem_nil,
      or_false] at hblk
    rcases hblk with rfl
    exact fun i v p => ⟨rfl, rfl, rfl⟩
  exact ⟨rfl, rfl, rfl, rfl, Or.inl rfl, fun t => ⟨rfl, rfl, rfl⟩, hdb, hsb,
    fun t v => rfl,
    forward_shape shapeModel xT scalarT txtT scalarT none 1 1 1 1 3 3
      rfl rfl rfl rfl (Or.inl rfl) (fun t => ⟨rfl, rfl, rfl⟩) hdb hsb
      (fun t v => rfl)⟩

theorem ids_txt_zero (bs Tc hl wl bi s k : Nat) (hsTc : s < Tc) :
    (Tensor.cat1 (Tensor.zeros [bs, Tc, 3])
      (repeatBatch (mkImgIds hl wl) bs)).data [bi, s, k] = 0 := by
  simp [Tensor.cat1, Tensor.zeros, hsTc]

theorem ids_img_entry (bs Tc hl wl bi i j : Nat) (hij : i < hl)
    (hjw : j < wl) :
    (Tensor.cat1 (Tensor.zeros [bs, Tc, 3])
      (repeatBatch (mkImgIds hl wl) bs)).data
        [bi, Tc + (i * wl + j), 0] = 0 ∧
    (Tensor.cat1 (Tensor.zeros [bs, Tc, 3])
      (repeatBatch (mkImgIds hl wl) bs)).data
        [bi, Tc + (i * wl + j), 1] = (i : Int) ∧
    (Tensor.cat1 (Tensor.zeros [bs, Tc, 3])
      (repeatBatch (mkImgIds hl wl) bs)).data
        [bi, Tc + (i * wl + j), 2] = (j : Int) := by
  have hnot : ¬ (Tc + (i * wl + j) < Tc) := by omega
  have hsub : Tc + (i * wl + j) - Tc = i * wl + j := by omega
  have hdm := grid_div_mod i j wl hjw
  refine ⟨?_, ?_, ?_⟩
  · simp only [Tensor.cat1, Tensor.zeros, data_mk, shape_mk, getD_c1]
    rw [if_neg hnot]
    show (mkImgIds hl wl).data
      [(Tc + (i * wl + j) - Tc) / wl, (Tc + (i * wl + j) - Tc) % wl, 0] = 0
    rw [hsub, hdm.1, hdm.2]
    simp [mkImgIds, addChannel, Tensor.zeros]
  · simp only [Tensor.cat1, Tensor.zeros, data_mk, shape_mk, getD_c1]
    rw [if_neg hnot]
    show (mkImgIds hl wl).data
      [(Tc + (i * wl + j) - Tc) / wl, (Tc + (i * wl + j) - Tc) % wl, 1] =
        (i : Int)
    rw [hsub, hdm.1, hdm.2]
    simp [mkImgIds, addChannel, Tensor.zeros]
  · simp only [Tensor.cat1, Tensor.zeros, data_mk, shape_mk, getD_c1]
    rw [if_neg hnot]
    show (mkImgIds hl wl).data
      [(Tc + (i * wl + j) - Tc) / wl, (Tc + (i * wl + j) - Tc) % wl, 2] =
        (j : Int)
    rw [hsub, hdm.1, hdm.2]
    simp [mkImgIds, addChannel, Tensor.zeros]

/-- C5: in forward, the positional ids handed to pe_embedder are the
text ids followed by the image ids along the sequence dimension: the
resulting sequence has length Tc + (h/2)*(w/2) with 3 id coordinates,
every text position carries the id (0, 0, 0), and the image position for
patch row i and patch column j carries the id (0, i, j), replicated over
every batch index (the entries do not depend on the batch coordinate). -/
theorem positional_ids (m : Flux) (x timestep context y : Tensor)
    (guidance : Option Tensor) (bs Tc hl wl : Nat)
    (hbs : bs = x.shape.getD 0 0)
    (hTc : Tc = context.shape.getD 1 0)
    (hhl : hl = x.shape.getD 2 0 / 2)
    (hwl : wl = x.shape.getD 3 0 / 2)
    (hctx : context.ndim = 3)
    (hg : m.params.guidance_embed = false ∨ ∃ g, guidance = some g) :
    (∃ r, m.forward x timestep context y guidance = .ok r ∧
      Event.peCall (Tensor.cat1 (Tensor.zeros [bs, Tc, 3])
        (repeatBatch (mkImgIds hl wl) bs)) ∈ r.2) ∧
    (Tensor.cat1 (Tensor.zeros [bs, Tc, 3])
      (repeatBatch (mkImgIds hl wl) bs)).shape = [bs, Tc + hl * wl, 3] ∧
    (∀ bi s k, s < Tc →
      (Tensor.cat1 (Tensor.zeros [bs, Tc, 3])
        (repeatBatch (mkImgIds hl wl) bs)).data [bi, s, k] = 0) ∧
    (∀ bi i j, i < hl → j < wl →
      (Tensor.cat1 (Tensor.zeros [bs, Tc, 3])
        (repeatBatch (mkImgIds hl wl) bs)).data
          [bi, Tc + (i * wl + j), 0] = 0 ∧
      (Tensor.cat1 (Tensor.zeros [bs, Tc, 3])
        (repeatBatch (mkImgIds hl wl) bs)).data
          [bi, Tc + (i * wl + j), 1] = (i : Int) ∧
      (Tensor.cat1 (Tensor.zeros [bs, Tc, 3])
        (repeatBatch (mkImgIds hl wl) bs)).data
          [bi, Tc + (i * wl + j), 2] = (j : Int)) := by
  subst hbs hTc hhl hwl
  refine ⟨?_, rfl, fun bi s k hsk => ids_txt_zero _ _ _ _ _ _ _ hsk,
    fun bi i j hij hjw => ids_img_entry _ _ _ _ _ _ _ hij hjw⟩
  have h1 : (patchify x).ndim = 3 := rfl
  simp only [Flux.forward]
  rcases hg with hge | ⟨g, hgg⟩
  · rw [forward_orig_ok_noembed m (patchify x) _ context _ timestep y
      guidance hge h1 hctx]
    simp only [Except.map]
    refine ⟨_, rfl, ?_⟩
    show Event.peCall _ ∈
      (m.run_streams (m.img_in (patchify x)) (m.txt_in context) _ _).2
    rw [run_streams_events]
    exact List.mem_cons_self _ _
  · subst hgg
    rcases hge : m.params.guidance_embed with _ | _
    · rw [forward_orig_ok_noembed m (patchify x) _ context _ timestep y
        (some g) hge h1 hctx]
      simp only [Except.map]
      refine ⟨_, rfl, ?_⟩
      show Event.peCall _ ∈
        (m.run_streams (m.img_in (patchify x)) (m.txt_in context) _ _).2
      rw [run_streams_events]
      exact List.mem_cons_self _ _
    · rw [forward_orig_ok_guid m (patchify x) _ context _ timestep y g
        hge h1 hctx]
      simp only [Except.map]
      refine ⟨_, rfl, ?_⟩
      show Event.peCall _ ∈
        (m.run_streams (m.img_in (patchify x)) (m.txt_in context) _ _).2
      rw [run_streams_events]
      exact List.mem_cons_self _ _

/-- C5 witness: the positional ids at a concrete (1, 1, 2, 2) image and
a 3-token text sequence. -/
theorem positional_ids_witness :
    (1 = xT.shape.getD 0 0) ∧ (3 = txtT.shape.getD 1 0) ∧
    (1 = xT.shape.getD 2 0 / 2) ∧ (1 = xT.shape.getD 3 0 / 2) ∧
    txtT.ndim = 3 ∧
    (testModel.params.guidance_embed = false ∨
      ∃ g, (none : Option Tensor) = some g) ∧
    ((∃ r, testModel.forward xT scalarT txtT scalarT none = .ok r ∧
      Event.peCall (Tensor.cat1 (Tensor.zeros [1, 3, 3])
        (repeatBatch (mkImgIds 1 1) 1)) ∈ r.2) ∧
    (Tensor.cat1 (Tensor.zeros [1, 3, 3])
      (repeatBatch (mkImgIds 1 1) 1)).shape = [1, 3 + 1 * 1, 3] ∧
    (∀ bi s k, s < 3 →
      (Tensor.cat1 (Tensor.zeros [1, 3, 3])
        (repeatBatch (mkImgIds 1 1) 1)).data [bi, s, k] = 0) ∧
    (∀ bi i j, i < 1 → j < 1 →
      (Tensor.cat1 (Tensor.zeros [1, 3, 3])
        (repeatBatch (mkImgIds 1 1) 1)).data
          [bi, 3 + (i * 1 + j), 0] = 0 ∧
      (Tensor.cat1 (Tensor.zeros [1, 3, 3])
        (repeatBatch (mkImgIds 1 1) 1)).data
          [bi, 3 + (i * 1 + j), 1] = (i : Int) ∧
      (Tensor.cat1 (Tensor.zeros [1, 3, 3])
        (repeatBatch (mkImgIds 1 1) 1)).data
          [bi, 3 + (i * 1 + j), 2] = (j : Int))) :=
  ⟨rfl, rfl, rfl, rfl, rfl, Or.inl rfl,
    positional_ids testModel xT scalarT txtT scalarT none 1 3 1 1
      rfl rfl rfl rfl rfl (Or.inl rfl)⟩

/-- C2 witness: the round trip at a concrete (1, 1, 2, 2) tensor. -/
theorem patch_roundtrip_witness :
    xT.shape = [1, 1, 2 * 1, 2 * 1] ∧
    (unpatchify (patchify xT) 1 1).shape = xT.shape ∧
    (unpatchify (patchify xT) 1 1).data [0, 0, 1, 1] = xT.data [0, 0, 1, 1] :=
  ⟨rfl, (patch_roundtrip xT 1 1 1 1 rfl).1,
    (patch_roundtrip xT 1 1 1 1 rfl).2 0 0 1 1 (by decide) (by decide)⟩

end FluxSpec
